import Mathlib

/-!
Verification of the `odrpack-python` driver layer (`src/odrpack/driver.py`).

The development shallowly embeds the argument validation, broadcast
normalization, job-code decoding, work-buffer handling and result assembly
performed by the `odr` driver function.  Numpy arrays are modelled as a shape
(a list of axis lengths) together with flat row-major data; float64 entries
are abstracted as integers, which is adequate for the shape/ordering logic
verified here.  The four `ValueError` categories of the error-handling design
are modelled by an explicit error type.
-/

namespace Odrpack

/-- Model of a numpy array: a shape (list of axis lengths, `[]` for rank 0)
and the flat row-major data.  Element values are abstracted as `Int`. -/
structure NArr where
  shape : List Nat
  data : List Int
  deriving DecidableEq, Repr

/-- `numpy.size`: the total number of elements, i.e. the product of the axis
lengths. -/
def NArr.size (a : NArr) : Nat := a.shape.prod

/-- Error taxonomy of the driver layer.  In the source every failure is a
`ValueError` (or `TypeError`); the constructors record which validation rule
fired, following the message raised at each site. -/
inductive OdrError where
  | shapeMismatch
  | invalidBounds
  | inconsistentJobArgument
  | restartSizeMismatch
  | typeError
  deriving DecidableEq, Repr

/-! ## Job-code decoding (`_get_digit`, lines 257-261 and 532-534) -/

/-- `_get_digit(number, ndigit)`: the `ndigit`-th decimal digit from the
right, `(number // 10**(ndigit-1)) % 10`. -/
def get_digit (number ndigit : Nat) : Nat := (number / 10 ^ (ndigit - 1)) % 10

/-- The four mode flags decoded from the job code. -/
structure JobFlags where
  is_odr : Bool
  has_jac : Bool
  has_delta0 : Bool
  is_restart : Bool
  deriving DecidableEq, Repr

/-- Lines 257-261 of `driver.py`: decode the job code into the four flags. -/
def decode_job (job : Nat) : JobFlags :=
  { is_odr := decide (get_digit job 1 < 2)
    has_jac := decide (get_digit job 2 > 1)
    has_delta0 := decide (get_digit job 4 > 0)
    is_restart := decide (get_digit job 5 > 0) }

/-! ## Dimension inference (lines 263-292) -/

/-- Lines 264-270: `m = 1` for rank-1 `x`, `x.shape[0]` for rank-2 `x`,
`ValueError` otherwise. -/
def infer_m (xshape : List Nat) : Except OdrError Nat :=
  if xshape.length = 1 then .ok 1
  else if xshape.length = 2 then .ok (xshape.getD 0 0)
  else .error .shapeMismatch

/-- Lines 272-278: `nq = 1` for rank-1 `y`, `y.shape[0]` for rank-2 `y`,
`ValueError` otherwise. -/
def infer_nq (yshape : List Nat) : Except OdrError Nat :=
  if yshape.length = 1 then .ok 1
  else if yshape.length = 2 then .ok (yshape.getD 0 0)
  else .error .shapeMismatch

/-- Lines 280-284: `n = x.shape[-1]` provided it equals `y.shape[-1]`. -/
def infer_n (xshape yshape : List Nat) : Except OdrError Nat :=
  if xshape.getLastD 0 = yshape.getLastD 0 then .ok (xshape.getLastD 0)
  else .error .shapeMismatch

/-- Lines 287-292: `npar = beta0.size` for rank-1 `beta0`, error otherwise. -/
def infer_npar (bshape : List Nat) : Except OdrError Nat :=
  if bshape.length = 1 then .ok bshape.prod
  else .error .shapeMismatch

/-- Lines 263-292 of `driver.py`: infer `(m, nq, n, npar)` from the shapes of
`x`, `y` and `beta0`, in the order the source performs the checks. -/
def infer_dims (xshape yshape bshape : List Nat) :
    Except OdrError (Nat × Nat × Nat × Nat) :=
  match infer_m xshape with
  | .error e => .error e
  | .ok m =>
    match infer_nq yshape with
    | .error e => .error e
    | .ok nq =>
      match infer_n xshape yshape with
      | .error e => .error e
      | .ok n =>
        match infer_npar bshape with
        | .error e => .error e
        | .ok npar => .ok (m, nq, n, npar)

end Odrpack

namespace Odrpack

lemma prod_eq_getD_of_length_one (l : List Nat) (h : l.length = 1) :
    l.prod = l.getD 0 0 := by
  obtain ⟨a, rfl⟩ := List.length_eq_one.mp h
  simp

/-- C5: For every non-negative integer job code the four mode flags are
obtained by extracting decimal digits from the right via
`digit(code, k) = (code / 10^(k-1)) mod 10` and thresholding: digit 1 < 2
gives ODR mode, digit 2 > 1 analytic Jacobians, digit 4 > 0 caller-supplied
initial error-in-x, digit 5 > 0 restart.  `decode_job` is a total function,
so the decoding never raises. -/
theorem C5_job_decode (job : Nat) :
    decode_job job =
      { is_odr := decide ((job / 10 ^ (0 : Nat)) % 10 < 2)
        has_jac := decide ((job / 10 ^ (1 : Nat)) % 10 > 1)
        has_delta0 := decide ((job / 10 ^ (3 : Nat)) % 10 > 0)
        is_restart := decide ((job / 10 ^ (4 : Nat)) % 10 > 0) } := rfl

end Odrpack

namespace Odrpack

/-- C3: dimension inference fails with a ShapeMismatch error if and only if
`x` has rank other than 1 or 2, or `y` has rank other than 1 or 2, or the
trailing axis lengths of `x` and `y` disagree, or `beta0` is not rank 1;
otherwise it succeeds with m = 1 for rank-1 `x` (else `x.shape[0]`),
nq = 1 for rank-1 `y` (else `y.shape[0]`), n = the common trailing axis
length, and npar = the length of `beta0`. -/
theorem C3_shape_resolver (xshape yshape bshape : List Nat) :
    (infer_dims xshape yshape bshape = .error .shapeMismatch ↔
       (xshape.length ≠ 1 ∧ xshape.length ≠ 2) ∨
       (yshape.length ≠ 1 ∧ yshape.length ≠ 2) ∨
       xshape.getLastD 0 ≠ yshape.getLastD 0 ∨ bshape.length ≠ 1) ∧
    (¬ ((xshape.length ≠ 1 ∧ xshape.length ≠ 2) ∨
        (yshape.length ≠ 1 ∧ yshape.length ≠ 2) ∨
        xshape.getLastD 0 ≠ yshape.getLastD 0 ∨ bshape.length ≠ 1) →
       infer_dims xshape yshape bshape =
         .ok ((if xshape.length = 1 then 1 else xshape.getD 0 0),
              (if yshape.length = 1 then 1 else yshape.getD 0 0),
              xshape.getLastD 0, bshape.getD 0 0)) := by
  unfold infer_dims infer_m infer_nq infer_n infer_npar
  constructor
  · split_ifs <;> simp_all
  · intro h
    push_neg at h
    obtain ⟨hx, hy, hn, hb⟩ := h
    have hp := prod_eq_getD_of_length_one bshape hb
    split_ifs <;> simp_all

end Odrpack

namespace Odrpack

/-- Witness for C3 at a concrete input: `x` of shape (2, 5), `y` of shape
(5,), `beta0` of shape (3,). -/
theorem C3_shape_resolver_witness :
    infer_dims [2, 5] [5] [3] = .ok (2, 1, 5, 3) := by
  have h := (C3_shape_resolver [2, 5] [5] [3]).2 (by decide)
  simpa using h

/-! ## Bounds checking (lines 294-304) -/

/-- `np.any(a >= b)` over the flat data of two same-shape arrays. -/
def any_ge (a b : List Int) : Bool := (a.zip b).any fun p => decide (p.2 ≤ p.1)

/-- `np.any(a <= b)` over the flat data of two same-shape arrays. -/
def any_le (a b : List Int) : Bool := (a.zip b).any fun p => decide (p.1 ≤ p.2)

/-- Lines 294-298: shape check then `np.any(lower >= beta0)`. -/
def check_lower (beta0 : NArr) (lower : Option NArr) : Except OdrError Unit :=
  match lower with
  | none => .ok ()
  | some lo =>
    if lo.shape ≠ beta0.shape then .error .shapeMismatch
    else if any_ge lo.data beta0.data then .error .invalidBounds
    else .ok ()

/-- Lines 300-304: shape check then `np.any(upper <= beta0)`. -/
def check_upper (beta0 : NArr) (upper : Option NArr) : Except OdrError Unit :=
  match upper with
  | none => .ok ()
  | some up =>
    if up.shape ≠ beta0.shape then .error .shapeMismatch
    else if any_le up.data beta0.data then .error .invalidBounds
    else .ok ()

/-- Lines 294-304 of `driver.py`: the `lower` checks run before the `upper`
checks. -/
def check_bounds (beta0 : NArr) (lower upper : Option NArr) :
    Except OdrError Unit :=
  match check_lower beta0 lower with
  | .error e => .error e
  | .ok _ => check_upper beta0 upper

lemma any_ge_iff (a b : List Int) :
    any_ge a b = true ↔
      ∃ i, i < a.length ∧ i < b.length ∧ b.getD i 0 ≤ a.getD i 0 := by
  induction a generalizing b with
  | nil => simp [any_ge]
  | cons x xs ih =>
    cases b with
    | nil => simp [any_ge]
    | cons y ys =>
      constructor
      · intro h
        have h' : (decide (y ≤ x) || any_ge xs ys) = true := h
        rcases Bool.or_eq_true_iff.mp h' with h0 | h1
        · exact ⟨0, by simp, by simp, by simpa using h0⟩
        · obtain ⟨i, h1', h2', h3'⟩ := (ih ys).mp h1
          exact ⟨i + 1, by simpa using h1', by simpa using h2', by simpa using h3'⟩
      · rintro ⟨i, h1, h2, h3⟩
        show (decide (y ≤ x) || any_ge xs ys) = true
        cases i with
        | zero =>
          apply Bool.or_eq_true_iff.mpr
          left
          simpa using h3
        | succ j =>
          apply Bool.or_eq_true_iff.mpr
          right
          exact (ih ys).mpr ⟨j, by simpa using h1, by simpa using h2, by simpa using h3⟩

lemma any_le_iff (a b : List Int) :
    any_le a b = true ↔
      ∃ i, i < a.length ∧ i < b.length ∧ a.getD i 0 ≤ b.getD i 0 := by
  induction a generalizing b with
  | nil => simp [any_le]
  | cons x xs ih =>
    cases b with
    | nil => simp [any_le]
    | cons y ys =>
      constructor
      · intro h
        have h' : (decide (x ≤ y) || any_le xs ys) = true := h
        rcases Bool.or_eq_true_iff.mp h' with h0 | h1
        · exact ⟨0, by simp, by simp, by simpa using h0⟩
        · obtain ⟨i, h1', h2', h3'⟩ := (ih ys).mp h1
          exact ⟨i + 1, by simpa using h1', by simpa using h2', by simpa using h3'⟩
      · rintro ⟨i, h1, h2, h3⟩
        show (decide (x ≤ y) || any_le xs ys) = true
        cases i with
        | zero =>
          apply Bool.or_eq_true_iff.mpr
          left
          simpa using h3
        | succ j =>
          apply Bool.or_eq_true_iff.mpr
          right
          exact (ih ys).mpr ⟨j, by simpa using h1, by simpa using h2, by simpa using h3⟩

end Odrpack

namespace Odrpack

/-- C6: when `lower` (resp. `upper`) is supplied, the call raises
InvalidBounds if some entry of `lower` is greater than or equal to (resp.
some entry of `upper` is less than or equal to) the corresponding entry of
`beta0` — equality included — and a supplied bound whose shape differs from
`beta0`'s is rejected (ShapeMismatch) before the solver runs.  The `upper`
clauses assume the `lower` checks pass, since the source checks `lower`
first. -/
theorem C6_invalid_bounds (beta0 : NArr) (lower upper : Option NArr) :
    (∀ lo, lower = some lo → lo.shape = beta0.shape →
       (∃ i, i < lo.data.length ∧ i < beta0.data.length ∧
          beta0.data.getD i 0 ≤ lo.data.getD i 0) →
       check_bounds beta0 lower upper = .error .invalidBounds) ∧
    (∀ up, upper = some up → check_lower beta0 lower = .ok () →
       up.shape = beta0.shape →
       (∃ i, i < up.data.length ∧ i < beta0.data.length ∧
          up.data.getD i 0 ≤ beta0.data.getD i 0) →
       check_bounds beta0 lower upper = .error .invalidBounds) ∧
    (∀ lo, lower = some lo → lo.shape ≠ beta0.shape →
       check_bounds beta0 lower upper = .error .shapeMismatch) ∧
    (∀ up, upper = some up → check_lower beta0 lower = .ok () →
       up.shape ≠ beta0.shape →
       check_bounds beta0 lower upper = .error .shapeMismatch) := by
  refine ⟨?_, ?_, ?_, ?_⟩
  · rintro lo rfl hsh hex
    have hge : any_ge lo.data beta0.data = true := (any_ge_iff _ _).mpr hex
    simp [check_bounds, check_lower, hsh, hge]
  · rintro up rfl hlo hsh hex
    have hle : any_le up.data beta0.data = true := (any_le_iff _ _).mpr hex
    simp [check_bounds, hlo, check_upper, hsh, hle]
  · rintro lo rfl hsh
    simp [check_bounds, check_lower, hsh]
  · rintro up rfl hlo hsh
    simp [check_bounds, hlo, check_upper, hsh]

/-- Witness for C6 at the boundary case `lower == beta0` (equality must be
rejected). -/
theorem C6_invalid_bounds_witness :
    check_bounds ⟨[2], [2, 0]⟩ (some ⟨[2], [2, 0]⟩) none =
      .error .invalidBounds :=
  (C6_invalid_bounds ⟨[2], [2, 0]⟩ (some ⟨[2], [2, 0]⟩) none).1 ⟨[2], [2, 0]⟩
    rfl rfl ⟨0, by decide, by decide, by decide⟩

/-! ## Initial error-in-x, `delta0` (lines 316-323) -/

/-- `np.zeros_like(x)`. -/
def zeros_like (x : NArr) : NArr := ⟨x.shape, List.replicate x.size 0⟩

/-- Lines 316-323 of `driver.py`: validate `delta0` against the
caller-supplied-delta0 flag of the job code and produce the initial working
error `delta`. -/
def check_delta0 (has_delta0 : Bool) (x : NArr) (delta0 : Option NArr) :
    Except OdrError NArr :=
  match has_delta0, delta0 with
  | true, some d => if d.shape ≠ x.shape then .error .shapeMismatch else .ok d
  | false, none => .ok (zeros_like x)
  | true, none => .error .inconsistentJobArgument
  | false, some _ => .error .inconsistentJobArgument

/-- C4: `delta0` is accepted exactly when its presence agrees with the job
code's caller-supplied-delta0 flag: flag set with an array of `x`'s shape
copies the array as the initial working error (ShapeMismatch for any other
shape); flag unset with no array defaults the initial error to zeros of
`x`'s shape; flag set with no array, or flag unset with an array, raises
InconsistentJobArgument. -/
theorem C4_delta0 (flag : Bool) (x : NArr) (delta0 : Option NArr) :
    (∀ d, flag = true → delta0 = some d → d.shape = x.shape →
       check_delta0 flag x delta0 = .ok d) ∧
    (∀ d, flag = true → delta0 = some d → d.shape ≠ x.shape →
       check_delta0 flag x delta0 = .error .shapeMismatch) ∧
    (flag = false → delta0 = none →
       check_delta0 flag x delta0 = .ok (zeros_like x)) ∧
    (flag = true → delta0 = none →
       check_delta0 flag x delta0 = .error .inconsistentJobArgument) ∧
    (∀ d, flag = false → delta0 = some d →
       check_delta0 flag x delta0 = .error .inconsistentJobArgument) := by
  refine ⟨?_, ?_, ?_, ?_, ?_⟩
  · rintro d rfl rfl hsh
    simp [check_delta0, hsh]
  · rintro d rfl rfl hsh
    simp [check_delta0, hsh]
  · rintro rfl rfl
    simp [check_delta0]
  · rintro rfl rfl
    simp [check_delta0]
  · rintro d rfl rfl
    simp [check_delta0]

/-- Witness for C4: flag unset, no array, `x` of shape (2,): the initial
error defaults to zeros of `x`'s shape. -/
theorem C4_delta0_witness :
    check_delta0 false ⟨[2], [5, 7]⟩ none = .ok (zeros_like ⟨[2], [5, 7]⟩) :=
  (C4_delta0 false ⟨[2], [5, 7]⟩ none).2.2.1 rfl rfl

end Odrpack

namespace Odrpack

/-! ## Per-explanatory-variable arrays `ifixx`, `stpd`, `scld`
(lines 325-368).  The three blocks are textually identical up to the
argument name and returned leading dimension, so a single function embeds
all three. -/

/-- `np.tile(v, (m, 1))` for a rank-1 `v` of shape `(n,)`: an `(m, n)` array
whose rows all equal `v`. -/
def tile_rows (v : NArr) (m : Nat) : NArr :=
  ⟨[m, v.shape.getD 0 0], (List.replicate m v.data).flatten⟩

/-- Lines 325-338 (and the identical 340-353, 355-368) of `driver.py`:
normalize one of `ifixx`/`stpd`/`scld` against `x`'s shape, returning the
(possibly tiled) array and the leading dimension `ld` communicated to the
solver. -/
def check_xaux (m n : Nat) (xshape : List Nat) (arr : Option NArr) :
    Except OdrError (Option NArr × Nat) :=
  match arr with
  | none => .ok (none, 1)
  | some a =>
    if a.shape = xshape then .ok (some a, n)
    else if a.shape = [m] ∧ m > 1 ∧ n ≠ m then .ok (some a, 1)
    else if a.shape = [n] ∧ m > 1 ∧ n ≠ m then .ok (some (tile_rows a m), n)
    else .error .shapeMismatch

/-- C8: broadcast idempotence for `ifixx`/`stpd`/`scld` when `m > 1` and
`n ≠ m`: a rank-1 array of shape `(n,)` yields exactly the same normalized
array and leading dimension (`ld = n`, tiled to `(m, n)`) as supplying the
fully materialized tiled `(m, n)` array directly; a rank-1 array of shape
`(m,)` yields `ld = 1` with the array left unmaterialized; every other shape
besides `x`'s own shape raises a ShapeMismatch error. -/
theorem C8_broadcast_idempotence (m n : Nat) (xshape : List Nat) (v : NArr)
    (hm : 1 < m) (hnm : n ≠ m) (hx : xshape = [m, n]) (hv : v.shape = [n]) :
    check_xaux m n xshape (some v) = .ok (some (tile_rows v m), n) ∧
    check_xaux m n xshape (some (tile_rows v m)) =
      .ok (some (tile_rows v m), n) ∧
    (∀ u : NArr, u.shape = [m] → check_xaux m n xshape (some u) =
      .ok (some u, 1)) ∧
    (∀ u : NArr, u.shape ≠ [m, n] → u.shape ≠ [m] → u.shape ≠ [n] →
      check_xaux m n xshape (some u) = .error .shapeMismatch) := by
  subst hx
  have hmn : ¬ ([n] : List Nat) = [m, n] := by simp
  have hmm : ¬ (([n] : List Nat) = [m] ∧ m > 1 ∧ n ≠ m) := by
    rintro ⟨h1, -, h3⟩
    exact h3 (by simpa using h1)
  refine ⟨?_, ?_, ?_, ?_⟩
  · simp [check_xaux, hv, hmn, hmm, hm, hnm]
  · have hts : (tile_rows v m).shape = [m, n] := by simp [tile_rows, hv]
    simp [check_xaux, hts]
  · intro u hu
    have h1 : ¬ u.shape = [m, n] := by simp [hu]
    simp [check_xaux, hu, h1, hm, hnm]
  · intro u h1 h2 h3
    simp [check_xaux, h1, h2, h3]

/-- Witness for C8 at `m = 2`, `n = 3`, `v = [1, 2, 3]`: the reduced and the
materialized arguments normalize identically. -/
theorem C8_broadcast_idempotence_witness :
    check_xaux 2 3 [2, 3] (some ⟨[3], [1, 2, 3]⟩) =
      .ok (some (tile_rows ⟨[3], [1, 2, 3]⟩ 2), 3) ∧
    check_xaux 2 3 [2, 3] (some (tile_rows ⟨[3], [1, 2, 3]⟩ 2)) =
      .ok (some (tile_rows ⟨[3], [1, 2, 3]⟩ 2), 3) :=
  ⟨(C8_broadcast_idempotence 2 3 [2, 3] ⟨[3], [1, 2, 3]⟩ (by decide) (by decide)
      rfl rfl).1,
   (C8_broadcast_idempotence 2 3 [2, 3] ⟨[3], [1, 2, 3]⟩ (by decide) (by decide)
      rfl rfl).2.1⟩

end Odrpack

namespace Odrpack

/-! ## Response and explanatory-variable weights `we`, `wd`
(lines 370-396 and 398-424).  The two blocks are textually identical up to
renaming (`nq` vs `m`), so a single function with parameter `q` embeds both:
`q = nq` for `we`, `q = m` for `wd`. -/

/-- A weight argument: a python scalar or a numpy array. -/
inductive WeightArg where
  | scalar (v : Int)
  | arr (a : NArr)
  deriving DecidableEq, Repr

/-- Lines 370-396 (and 398-424) of `driver.py`: normalize a weight argument,
returning the (possibly materialized) array and the `(ld, ld2)` descriptor
pair.  A scalar becomes `np.full((q,), v)` with ld = 1, ld2 = 1; an array is
matched against the if/elif chain in source order. -/
def check_weight (q n : Nat) (w : Option WeightArg) :
    Except OdrError (Option NArr × Nat × Nat) :=
  match w with
  | none => .ok (none, 1, 1)
  | some (.scalar v) => .ok (some ⟨[q], List.replicate q v⟩, 1, 1)
  | some (.arr a) =>
    if a.shape = [q] then .ok (some a, 1, 1)
    else if a.shape = [q, q] then .ok (some a, 1, q)
    else if a.shape = [q, n] ∨ (a.shape = [n] ∧ q = 1) then .ok (some a, n, 1)
    else if a.shape = [q, 1, 1] ∨ a.shape = [q, 1, n] ∨
            a.shape = [q, q, 1] ∨ a.shape = [q, q, n] then
      .ok (some a, a.shape.getD 2 0, a.shape.getD 1 0)
    else .error .shapeMismatch

/-- The ordered weight-shape table exactly as the claim states it, first
match wins: first entry "(q,) or (n,) when q=1 gives ld=n, ld2=1", then
"(q,q) gives ld=1, ld2=q", then "(q,n) or (n,) with q=1 gives ld=n, ld2=1",
then the four rank-3 shapes with ld/ld2 from the trailing two axes. -/
def claimed_weight_table (q n : Nat) (shape : List Nat) :
    Except OdrError (Nat × Nat) :=
  if shape = [q] ∨ (shape = [n] ∧ q = 1) then .ok (n, 1)
  else if shape = [q, q] then .ok (1, q)
  else if shape = [q, n] ∨ (shape = [n] ∧ q = 1) then .ok (n, 1)
  else if shape = [q, 1, 1] ∨ shape = [q, 1, n] ∨
          shape = [q, q, 1] ∨ shape = [q, q, n] then
    .ok (shape.getD 2 0, shape.getD 1 0)
  else .error .shapeMismatch

/-- The weight-shape table with the first entry amended to what the source
does: shape `(q,)` gives ld=1, ld2=1 (the "(n,) with q=1" case is handled by
the third entry); the remaining entries are as the claim states them. -/
def amended_weight_table (q n : Nat) (shape : List Nat) :
    Except OdrError (Nat × Nat) :=
  if shape = [q] then .ok (1, 1)
  else if shape = [q, q] then .ok (1, q)
  else if shape = [q, n] ∨ (shape = [n] ∧ q = 1) then .ok (n, 1)
  else if shape = [q, 1, 1] ∨ shape = [q, 1, n] ∨
          shape = [q, q, 1] ∨ shape = [q, q, n] then
    .ok (shape.getD 2 0, shape.getD 1 0)
  else .error .shapeMismatch

/-- Counterexample to C1 as stated: for `q = 2`, `n = 3`, a weight array of
shape `(q,) = (2,)` the claim's first table entry yields ld = n = 3, but the
source assigns ld = 1, ld2 = 1. -/
theorem C1_counterexample :
    check_weight 2 3 (some (.arr ⟨[2], [1, 1]⟩)) =
      .ok (some ⟨[2], [1, 1]⟩, 1, 1) ∧
    claimed_weight_table 2 3 [2] = .ok (3, 1) ∧
    ((1, 1) : Nat × Nat) ≠ (3, 1) := by
  refine ⟨rfl, rfl, by decide⟩

/-- C1 (amended): a scalar weight is broadcast to a vector of length q with
ld = 1, ld2 = 1; an array is matched first-match-wins against the amended
table — shape `(q,)` gives ld=1, ld2=1; `(q,q)` gives ld=1, ld2=q; `(q,n)`
or `(n,)` with q=1 gives ld=n, ld2=1; the rank-3 shapes take ld and ld2 from
the trailing two axes — and any array matching no entry raises ShapeMismatch.
The same function embeds both `we` (q = nq) and `wd` (q = m), since the two
source blocks are identical up to renaming. -/
theorem C1_weight_dispatch (q n : Nat) (w : Option WeightArg) :
    (∀ v, w = some (.scalar v) →
       check_weight q n w = .ok (some ⟨[q], List.replicate q v⟩, 1, 1)) ∧
    (∀ a, w = some (.arr a) →
       check_weight q n w =
         (amended_weight_table q n a.shape).map fun p => (some a, p.1, p.2)) := by
  constructor
  · rintro v rfl
    rfl
  · rintro a rfl
    simp only [check_weight, amended_weight_table]
    split_ifs <;> rfl

/-- Witness for C1 (amended) at concrete inputs: a scalar weight with q = 2,
and a `(q,q)` array with q = 2, n = 5. -/
theorem C1_weight_dispatch_witness :
    check_weight 2 5 (some (.scalar 7)) =
      .ok (some ⟨[2], List.replicate 2 7⟩, 1, 1) ∧
    check_weight 2 5 (some (.arr ⟨[2, 2], [1, 0, 0, 1]⟩)) =
      ((amended_weight_table 2 5 [2, 2]).map
        fun p => (some ⟨[2, 2], [1, 0, 0, 1]⟩, p.1, p.2)) :=
  ⟨(C1_weight_dispatch 2 5 (some (.scalar 7))).1 7 rfl,
   (C1_weight_dispatch 2 5 (some (.arr ⟨[2, 2], [1, 0, 0, 1]⟩))).2
     ⟨[2, 2], [1, 0, 0, 1]⟩ rfl⟩

end Odrpack

namespace Odrpack

/-! ## Work buffers (lines 454-468).  The required lengths `lwork`, `liwork`
are computed by the external `workspace_dimensions(n, m, npar, nq, is_odr)`
immediately before this check; they are taken here as inputs. -/

/-- Lines 456-468 of `driver.py`: allocate fresh zero-initialized buffers on
a non-restart call with no buffers supplied, validate lengths on a restart
call with both buffers supplied, and reject every other combination. -/
def check_work (lwork liwork : Nat) (is_restart : Bool)
    (work iwork : Option (List Int)) : Except OdrError (List Int × List Int) :=
  if is_restart = false ∧ work = none ∧ iwork = none then
    .ok (List.replicate lwork 0, List.replicate liwork 0)
  else if is_restart = true ∧ work ≠ none ∧ iwork ≠ none then
    match work, iwork with
    | some w, some iw =>
      if w.length ≠ lwork then .error .restartSizeMismatch
      else if iw.length ≠ liwork then .error .restartSizeMismatch
      else .ok (w, iw)
    | _, _ => .error .inconsistentJobArgument
  else .error .inconsistentJobArgument

/-- C2: exactly one of {restart flag unset and neither buffer supplied} or
{restart flag set and both buffers supplied} is accepted; any other
combination raises InconsistentJobArgument; on a valid restart a buffer of
the wrong length raises RestartSizeMismatch; on a valid fresh call both
buffers are allocated zero-initialized at the computed lengths. -/
theorem C2_work_buffers (lwork liwork : Nat) (is_restart : Bool)
    (work iwork : Option (List Int)) :
    ((∃ r, check_work lwork liwork is_restart work iwork = .ok r) ↔
       (is_restart = false ∧ work = none ∧ iwork = none) ∨
       (is_restart = true ∧ ∃ w iw, work = some w ∧ iwork = some iw ∧
          w.length = lwork ∧ iw.length = liwork)) ∧
    (is_restart = false → work = none → iwork = none →
       check_work lwork liwork is_restart work iwork =
         .ok (List.replicate lwork 0, List.replicate liwork 0)) ∧
    (∀ w iw, is_restart = true → work = some w → iwork = some iw →
       (w.length ≠ lwork ∨ iw.length ≠ liwork) →
       check_work lwork liwork is_restart work iwork =
         .error .restartSizeMismatch) ∧
    (¬ ((is_restart = false ∧ work = none ∧ iwork = none) ∨
        (is_restart = true ∧ work ≠ none ∧ iwork ≠ none)) →
       check_work lwork liwork is_restart work iwork =
         .error .inconsistentJobArgument) := by
  refine ⟨?_, ?_, ?_, ?_⟩
  · cases is_restart <;> rcases work with _ | w <;> rcases iwork with _ | iw <;>
      try simp [check_work]
    by_cases hw : w.length = lwork <;> by_cases hiw : iw.length = liwork <;>
      simp [check_work, hw, hiw]
  · rintro rfl rfl rfl
    simp [check_work]
  · rintro w iw rfl rfl rfl hlen
    rcases hlen with h | h
    · simp [check_work, h]
    · by_cases hw : w.length = lwork <;> simp [check_work, hw, h]
  · intro h
    cases is_restart <;> rcases work with _ | w <;> rcases iwork with _ | iw <;>
      simp_all [check_work]

/-- Witness for C2: a fresh call (restart unset, no buffers) with computed
lengths 2 and 1 allocates zero buffers of those lengths. -/
theorem C2_work_buffers_witness :
    check_work 2 1 false none none =
      .ok (List.replicate 2 0, List.replicate 1 0) :=
  (C2_work_buffers 2 1 false none none).2.1 rfl rfl rfl

end Odrpack

namespace Odrpack

/-! ## Result assembly (lines 488-529 and `_interpret_info`, lines 537-550).
The offsets `i0_eps`, `i0_sd`, `i0_vcv` are looked up in the offset map
produced by the external `dwinf`; they are taken here as inputs. -/

/-- `_interpret_info(info)`, lines 537-550 of `driver.py`. -/
def interpret_info (info : Int) : String :=
  if info = 1 then "Sum of squares convergence."
  else if info = 2 then "Parameter convergence."
  else if info = 3 then "Sum of squares and parameter convergence."
  else if info = 4 then "Iteration limit reached."
  else if info ≥ 5 then
    "Questionable results or fatal errors detected. See report and error message."
  else ""

/-- Elementwise `numpy` addition of two same-shape arrays. -/
def arr_add (a b : NArr) : NArr := ⟨a.shape, a.data.zipWith (· + ·) b.data⟩

/-- `buf[start:start+len].copy()`. -/
def slice_buf (buf : List Int) (start len : Nat) : List Int :=
  (buf.drop start).take len

/-- The fields of the returned result record that the claims refer to. -/
structure OdrResult where
  beta : NArr
  delta : NArr
  eps : NArr
  xplus : NArr
  yest : NArr
  sd_beta : List Int
  cov_beta : NArr
  info : Int
  stopreason : String
  success : Bool
  deriving DecidableEq, Repr

/-- Lines 488-529 of `driver.py`: slice `eps`, `sd` and `vcv` out of the
mutated real work buffer, reshape `eps` to `y`'s shape and `vcv` to
`(npar, npar)`, and build the result record with `xplus = x + delta`,
`yest = y + eps`, `success = info < 4` and
`stopreason = _interpret_info(info)`. -/
def assemble_result (x y beta delta : NArr) (work : List Int)
    (i0_eps i0_sd i0_vcv : Nat) (info : Int) : OdrResult :=
  let eps : NArr := ⟨y.shape, slice_buf work i0_eps y.size⟩
  { beta := beta
    delta := delta
    eps := eps
    xplus := arr_add x delta
    yest := arr_add y eps
    sd_beta := slice_buf work i0_sd beta.size
    cov_beta := ⟨[beta.size, beta.size], slice_buf work i0_vcv (beta.size * beta.size)⟩
    info := info
    stopreason := interpret_info info
    success := decide (info < 4) }

lemma zipWith_add_getD (a b : List Int) (i : Nat)
    (ha : i < a.length) (hb : i < b.length) :
    (a.zipWith (· + ·) b).getD i 0 = a.getD i 0 + b.getD i 0 := by
  induction a generalizing b i with
  | nil => simp at ha
  | cons x xs ih =>
    cases b with
    | nil => simp at hb
    | cons y ys =>
      cases i with
      | zero => simp
      | succ j =>
        simp only [List.zipWith_cons_cons, List.getD_cons_succ]
        exact ih ys j (by simpa using ha) (by simpa using hb)

/-- C7: the returned result's success flag is true iff the solver's status
code is strictly below the iteration-limit code 4; the stop-reason string
comes from the fixed table (1 = sum-of-squares convergence, 2 = parameter
convergence, 3 = both, 4 = iteration limit, every code >= 5 the
questionable-results/fatal message); the status code is stored in the
result — `assemble_result` and `interpret_info` are total, so this layer
never raises on a status code. -/
theorem C7_info_classification (x y beta delta : NArr) (work : List Int)
    (i0_eps i0_sd i0_vcv : Nat) (info : Int) :
    ((assemble_result x y beta delta work i0_eps i0_sd i0_vcv info).success
        = true ↔ info < 4) ∧
    (assemble_result x y beta delta work i0_eps i0_sd i0_vcv info).info
        = info ∧
    (assemble_result x y beta delta work i0_eps i0_sd i0_vcv info).stopreason
        = interpret_info info ∧
    interpret_info 1 = "Sum of squares convergence." ∧
    interpret_info 2 = "Parameter convergence." ∧
    interpret_info 3 = "Sum of squares and parameter convergence." ∧
    interpret_info 4 = "Iteration limit reached." ∧
    (∀ i : Int, 5 ≤ i → interpret_info i =
      "Questionable results or fatal errors detected. See report and error message.") := by
  refine ⟨?_, rfl, rfl, rfl, rfl, rfl, rfl, ?_⟩
  · simp [assemble_result]
  · intro i hi
    have h1 : ¬ i = 1 := by omega
    have h2 : ¬ i = 2 := by omega
    have h3 : ¬ i = 3 := by omega
    have h4 : ¬ i = 4 := by omega
    simp [interpret_info, h1, h2, h3, h4, hi]

/-- Witness for C7: status code 6 is classified with the fatal message. -/
theorem C7_info_classification_witness :
    interpret_info 6 =
      "Questionable results or fatal errors detected. See report and error message." :=
  (C7_info_classification ⟨[], []⟩ ⟨[], []⟩ ⟨[], []⟩ ⟨[], []⟩ [] 0 0 0
      6).2.2.2.2.2.2.2 6 (by norm_num)

/-- C10: in every returned result, the adjusted explanatory-variable field
equals the caller's `x` plus the result's `delta` field elementwise, and the
estimated response field equals the caller's `y` plus the result's `eps`
field elementwise. -/
theorem C10_adjusted_fields (x y beta delta : NArr) (work : List Int)
    (i0_eps i0_sd i0_vcv : Nat) (info : Int) (r : OdrResult)
    (hr : r = assemble_result x y beta delta work i0_eps i0_sd i0_vcv info) :
    r.xplus = arr_add x r.delta ∧ r.yest = arr_add y r.eps ∧
    (∀ i, i < x.data.length → i < r.delta.data.length →
       r.xplus.data.getD i 0 = x.data.getD i 0 + r.delta.data.getD i 0) ∧
    (∀ i, i < y.data.length → i < r.eps.data.length →
       r.yest.data.getD i 0 = y.data.getD i 0 + r.eps.data.getD i 0) := by
  subst hr
  refine ⟨rfl, rfl, ?_, ?_⟩
  · intro i h1 h2
    simp only [assemble_result, arr_add] at h2 ⊢
    exact zipWith_add_getD _ _ i h1 h2
  · intro i h1 h2
    simp only [assemble_result, arr_add] at h2 ⊢
    exact zipWith_add_getD _ _ i h1 h2

/-- Witness for C10 at concrete data: `x = [1, 2]`, `delta = [5, 6]`,
`y = [3, 4]`, a work buffer `[7, 8]` holding `eps` at offset 0. -/
theorem C10_adjusted_fields_witness :
    (assemble_result ⟨[2], [1, 2]⟩ ⟨[2], [3, 4]⟩ ⟨[1], [9]⟩ ⟨[2], [5, 6]⟩
        [7, 8] 0 0 0 1).xplus.data.getD 0 0 =
      (⟨[2], [1, 2]⟩ : NArr).data.getD 0 0 +
      (assemble_result ⟨[2], [1, 2]⟩ ⟨[2], [3, 4]⟩ ⟨[1], [9]⟩ ⟨[2], [5, 6]⟩
        [7, 8] 0 0 0 1).delta.data.getD 0 0 :=
  (C10_adjusted_fields ⟨[2], [1, 2]⟩ ⟨[2], [3, 4]⟩ ⟨[1], [9]⟩ ⟨[2], [5, 6]⟩
      [7, 8] 0 0 0 1
      (assemble_result ⟨[2], [1, 2]⟩ ⟨[2], [3, 4]⟩ ⟨[1], [9]⟩ ⟨[2], [5, 6]⟩
        [7, 8] 0 0 0 1) rfl).2.2.1 0 (by decide) (by decide)

end Odrpack

namespace Odrpack

/-! ## Remaining validation steps and the full pre-solver pipeline
(lines 257-468).  The model function and the Jacobians enter the validation
only through the shapes of their probe outputs `f(beta0, x)`,
`fjacb(beta0, x)`, `fjacd(beta0, x)`, which are taken as inputs. -/

/-- Lines 306-313: `ifixb` / `stpb` / `sclb` must have `beta0`'s shape. -/
def check_bshape (bshape : List Nat) (arr : Option NArr) :
    Except OdrError Unit :=
  match arr with
  | none => .ok ()
  | some a => if a.shape ≠ bshape then .error .shapeMismatch else .ok ()

/-- Lines 427-430: the probe `f0 = f(beta0, x)` must have `y`'s shape. -/
def check_f0 (f0shape yshape : List Nat) : Except OdrError Unit :=
  if f0shape ≠ yshape then .error .shapeMismatch else .ok ()

/-- Lines 434-452: a Jacobian probe must have trailing axis `n` and total
size `sz` (`n*npar*nq` for `fjacb`, `n*m*nq` for `fjacd`), and its presence
must agree with the analytic-Jacobian flag of the job code. -/
def check_jac (has_jac : Bool) (jshape : Option (List Nat)) (n sz : Nat) :
    Except OdrError Unit :=
  match has_jac, jshape with
  | true, some s =>
    if s.getLastD 0 ≠ n ∨ s.prod ≠ sz then .error .shapeMismatch else .ok ()
  | false, none => .ok ()
  | true, none => .error .inconsistentJobArgument
  | false, some _ => .error .inconsistentJobArgument

/-- Modelled from the spec: the integer-buffer length computed by the
external `workspace_dimensions` routine (compiled extension, not under
`src/`), per the regression-derived invariant of §8 of the spec:
`liwork = 20 + 2*npar + nq*(npar + m)`. -/
def liwork_dims (m npar nq : Nat) : Nat := 20 + 2 * npar + nq * (npar + m)

/-- The call arguments of `odr` that participate in validation.  Probe
shapes stand in for the callables (see above). -/
structure OdrArgs where
  job : Nat
  x : NArr
  y : NArr
  beta0 : NArr
  f0shape : List Nat
  fjacb0shape : Option (List Nat) := none
  fjacd0shape : Option (List Nat) := none
  we : Option WeightArg := none
  wd : Option WeightArg := none
  ifixb : Option NArr := none
  ifixx : Option NArr := none
  delta0 : Option NArr := none
  lower : Option NArr := none
  upper : Option NArr := none
  stpb : Option NArr := none
  stpd : Option NArr := none
  sclb : Option NArr := none
  scld : Option NArr := none
  work : Option (List Int) := none
  iwork : Option (List Int) := none
  deriving DecidableEq, Repr

/-- Everything the driver hands to the external solver call after
validation succeeds. -/
structure Validated where
  m : Nat
  nq : Nat
  n : Nat
  npar : Nat
  flags : JobFlags
  beta : NArr
  delta : NArr
  ifixx : Option NArr
  stpd : Option NArr
  scld : Option NArr
  we : Option NArr
  wd : Option NArr
  ldifx : Nat
  ldstpd : Nat
  ldscld : Nat
  ldwe : Nat
  ld2we : Nat
  ldwd : Nat
  ld2wd : Nat
  work : List Int
  iwork : List Int
  deriving DecidableEq, Repr

/-- The validation steps of `odr` after dimension inference, in source
order (lines 294-468). -/
def validate_rest (a : OdrArgs) (flags : JobFlags) (m nq n npar : Nat)
    (lwork liwork : Nat) : Except OdrError Validated :=
  match check_bounds a.beta0 a.lower a.upper with
  | .error e => .error e
  | .ok _ =>
  match check_bshape a.beta0.shape a.ifixb with
  | .error e => .error e
  | .ok _ =>
  match check_bshape a.beta0.shape a.stpb with
  | .error e => .error e
  | .ok _ =>
  match check_bshape a.beta0.shape a.sclb with
  | .error e => .error e
  | .ok _ =>
  match check_delta0 flags.has_delta0 a.x a.delta0 with
  | .error e => .error e
  | .ok delta =>
  match check_xaux m n a.x.shape a.ifixx with
  | .error e => .error e
  | .ok (ifixx, ldifx) =>
  match check_xaux m n a.x.shape a.stpd with
  | .error e => .error e
  | .ok (stpd, ldstpd) =>
  match check_xaux m n a.x.shape a.scld with
  | .error e => .error e
  | .ok (scld, ldscld) =>
  match check_weight nq n a.we with
  | .error e => .error e
  | .ok (we, ldwe, ld2we) =>
  match check_weight m n a.wd with
  | .error e => .error e
  | .ok (wd, ldwd, ld2wd) =>
  match check_f0 a.f0shape a.y.shape with
  | .error e => .error e
  | .ok _ =>
  match check_jac flags.has_jac a.fjacb0shape n (n * npar * nq) with
  | .error e => .error e
  | .ok _ =>
  match check_jac flags.has_jac a.fjacd0shape n (n * m * nq) with
  | .error e => .error e
  | .ok _ =>
  match check_work lwork liwork flags.is_restart a.work a.iwork with
  | .error e => .error e
  | .ok (work, iwork) =>
    .ok { m := m, nq := nq, n := n, npar := npar, flags := flags
          beta := a.beta0, delta := delta
          ifixx := ifixx, stpd := stpd, scld := scld, we := we, wd := wd
          ldifx := ldifx, ldstpd := ldstpd, ldscld := ldscld
          ldwe := ldwe, ld2we := ld2we, ldwd := ldwd, ld2wd := ld2wd
          work := work, iwork := iwork }

/-- Lines 257-468 of `driver.py`: the complete pre-solver validation.  The
buffer lengths `lwork`, `liwork` are the values returned by the external
`workspace_dimensions` call. -/
def odr_validate (lwork liwork : Nat) (a : OdrArgs) :
    Except OdrError Validated :=
  let flags := decode_job a.job
  match infer_dims a.x.shape a.y.shape a.beta0.shape with
  | .error e => .error e
  | .ok (m, nq, n, npar) => validate_rest a flags m nq n npar lwork liwork

/-- The inferred problem dimensions `(m, nq, n, npar)` of a validated call. -/
def dims_of (v : Validated) : Nat × Nat × Nat × Nat := (v.m, v.nq, v.n, v.npar)

end Odrpack

namespace Odrpack

lemma getLastD_mem (l : List Nat) (hl : l ≠ []) : l.getLastD 0 ∈ l := by
  induction l with
  | nil => exact absurd rfl hl
  | cons a t ih =>
    cases t with
    | nil => simp
    | cons b u =>
      have h2 : (a :: b :: u).getLastD 0 = (b :: u).getLastD 0 := by
        simp [List.getLastD_cons]
      rw [h2]
      exact List.mem_cons_of_mem a (ih (by simp))

lemma infer_m_pos (xshape : List Nat) (m : Nat) (hx : ∀ d ∈ xshape, 0 < d)
    (h : infer_m xshape = .ok m) : 1 ≤ m := by
  rcases xshape with - | ⟨a, - | ⟨b, - | ⟨c, t⟩⟩⟩
  · simp [infer_m] at h
  · simp [infer_m] at h
    omega
  · simp [infer_m] at h
    have ha := hx a (by simp)
    omega
  · simp [infer_m] at h

lemma infer_nq_pos (yshape : List Nat) (nq : Nat) (hy : ∀ d ∈ yshape, 0 < d)
    (h : infer_nq yshape = .ok nq) : 1 ≤ nq := by
  rcases yshape with - | ⟨a, - | ⟨b, - | ⟨c, t⟩⟩⟩
  · simp [infer_nq] at h
  · simp [infer_nq] at h
    omega
  · simp [infer_nq] at h
    have ha := hy a (by simp)
    omega
  · simp [infer_nq] at h

lemma infer_m_ne_nil (xshape : List Nat) (m : Nat)
    (h : infer_m xshape = .ok m) : xshape ≠ [] := by
  intro hc
  subst hc
  simp [infer_m] at h

lemma infer_n_pos (xshape yshape : List Nat) (n : Nat)
    (hx : ∀ d ∈ xshape, 0 < d) (hne : xshape ≠ [])
    (h : infer_n xshape yshape = .ok n) : 1 ≤ n := by
  unfold infer_n at h
  split_ifs at h with hc
  simp only [Except.ok.injEq] at h
  subst h
  exact hx _ (getLastD_mem xshape hne)

lemma infer_npar_pos (bshape : List Nat) (npar : Nat)
    (hb : ∀ d ∈ bshape, 0 < d) (h : infer_npar bshape = .ok npar) :
    1 ≤ npar := by
  unfold infer_npar at h
  split_ifs at h with hc
  obtain ⟨k, rfl⟩ := List.length_eq_one.mp hc
  simp at h
  have := hb k (by simp)
  omega

lemma infer_dims_ok (xshape yshape bshape : List Nat) (m nq n npar : Nat)
    (h : infer_dims xshape yshape bshape = .ok (m, nq, n, npar)) :
    infer_m xshape = .ok m ∧ infer_nq yshape = .ok nq ∧
    infer_n xshape yshape = .ok n ∧ infer_npar bshape = .ok npar := by
  unfold infer_dims at h
  repeat' split at h
  all_goals simp_all

lemma validate_rest_dims (a : OdrArgs) (flags : JobFlags)
    (m nq n npar lwork liwork : Nat) (v : Validated)
    (h : validate_rest a flags m nq n npar lwork liwork = .ok v) :
    v.m = m ∧ v.nq = nq ∧ v.n = n ∧ v.npar = npar := by
  unfold validate_rest at h
  repeat' split at h
  all_goals simp_all
  all_goals (obtain rfl := h.symm; simp)

end Odrpack

namespace Odrpack

/-- Counterexample to C9 as stated: the call with `x`, `y` and `beta0` all
empty arrays of shape `(0,)` (and a model probe of shape `(0,)`, job 0, all
optional arguments omitted) passes every validation step and reaches the
solver with n = 0 and npar = 0, contradicting the claim that all inferred
dimensions are at least 1. -/
theorem C9_counterexample :
    (odr_validate 0 (liwork_dims 1 0 1)
        { job := 0, x := ⟨[0], []⟩, y := ⟨[0], []⟩, beta0 := ⟨[0], []⟩,
          f0shape := [0] }).map dims_of = .ok (1, 1, 0, 0) := rfl

/-- C9 (amended): for every call that passes validation and reaches the
solver, the inferred dimensions m and nq are at least 1, and n and npar are
also at least 1 provided every axis length of `x`, `y` and `beta0` is
positive; arrays with a zero-length axis pass validation with zero
dimensions (see the counterexample). -/
theorem C9_dims_positive (lwork liwork : Nat) (a : OdrArgs) (v : Validated)
    (hx : ∀ d ∈ a.x.shape, 0 < d) (hy : ∀ d ∈ a.y.shape, 0 < d)
    (hb : ∀ d ∈ a.beta0.shape, 0 < d)
    (h : odr_validate lwork liwork a = .ok v) :
    1 ≤ v.n ∧ 1 ≤ v.m ∧ 1 ≤ v.npar ∧ 1 ≤ v.nq := by
  unfold odr_validate at h
  split at h
  · exact absurd h (by simp)
  · rename_i m nq n npar heq
    obtain ⟨hm, hnq, hn, hnpar⟩ := infer_dims_ok _ _ _ _ _ _ _ heq
    obtain ⟨em, enq, en, enpar⟩ :=
      validate_rest_dims _ _ _ _ _ _ _ _ _ h
    refine ⟨?_, ?_, ?_, ?_⟩
    · rw [en]
      exact infer_n_pos _ _ _ hx (infer_m_ne_nil _ _ hm) hn
    · rw [em]
      exact infer_m_pos _ _ hx hm
    · rw [enpar]
      exact infer_npar_pos _ _ hb hnpar
    · rw [enq]
      exact infer_nq_pos _ _ hy hnq

/-- The arguments of the C9 witness call: a minimal valid fresh call. -/
def c9_witness_args : OdrArgs :=
  { job := 0, x := ⟨[2], [1, 2]⟩, y := ⟨[2], [3, 4]⟩, beta0 := ⟨[1], [1]⟩,
    f0shape := [2] }

/-- The validated state produced by the C9 witness call. -/
def c9_witness_val : Validated :=
  { m := 1, nq := 1, n := 2, npar := 1
    flags := { is_odr := true, has_jac := false, has_delta0 := false,
               is_restart := false }
    beta := ⟨[1], [1]⟩, delta := ⟨[2], [0, 0]⟩
    ifixx := none, stpd := none, scld := none, we := none, wd := none
    ldifx := 1, ldstpd := 1, ldscld := 1, ldwe := 1, ld2we := 1
    ldwd := 1, ld2wd := 1
    work := [], iwork := [] }

/-- Witness for C9 (amended) at a concrete valid fresh call with all axis
lengths positive. -/
theorem C9_dims_positive_witness :
    1 ≤ c9_witness_val.n ∧ 1 ≤ c9_witness_val.m ∧
    1 ≤ c9_witness_val.npar ∧ 1 ≤ c9_witness_val.nq :=
  C9_dims_positive 0 0 c9_witness_args c9_witness_val
    (by decide) (by decide) (by decide) rfl

end Odrpack
